import Mathlib

/-!
Verification of `ubuntu_image_fetcher.py` (Ubuntu Image Fetcher).

The program performs one download attempt per call of `fetch_image`:
it creates the target directory, issues an HTTP GET, fails fast on
error statuses, validates that the payload is an image (content type
or magic bytes), derives a filesystem-safe filename, and streams the
body to disk in chunks, returning a `(success, message)` pair.

The embedding below translates the fetch/validate/name/save sequence.
External effects (the HTTP transport, the clock, the filesystem) are
made explicit parameters of one attempt:

* `Env` carries what one attempt observes from the outside world: whether
  `Path(directory).mkdir` raises `PermissionError`, the outcome of
  `requests.get` (an exception, or a `Response`), whether opening the
  output file raises `PermissionError`, and the value of `int(time.time())`.
* `Response` carries the status code, the three headers the program reads
  (`content-type`, `content-disposition`, `content-length`, the last kept
  as the raw header string since the program parses it with `int`), and
  the body as the list of chunks `iter_content` yields.
* `FetchOutcome` records the returned pair — or an exception escaping
  `fetch_image`, which the control flow of the source makes possible:
  `Path(directory).mkdir(exist_ok=True)` on line 95 runs before the
  `try` block that starts on line 98 — together with the file write the
  attempt performed, if any, and the accumulated `total_size` counter.

Python built-ins used by the program (`str.isalnum`, `str.strip`,
`str.split`, the `in` operator, `int(...)`, `urllib.parse.urlparse`,
`urllib.parse.unquote`, `os.path.basename`, `mimetypes.guess_extension`,
`pathlib` joining) are modelled by the `py*`-named definitions, each
carrying a comment stating the extent of the model.
-/

namespace UbuntuFetcher

/-- Splitter behind `pySplit`, on character lists: leftmost, non-overlapping
occurrences of `sep` cut the input, exactly as Python `str.split` with a
non-empty separator. The fuel argument (instantiated with the input length,
which always suffices for a non-empty separator) makes the recursion
structural. -/
def pySplitAux (sep : List Char) : Nat → List Char → List Char → List (List Char)
  | _, [], cur => [cur.reverse]
  | 0, s, cur => [cur.reverse ++ s]
  | fuel + 1, c :: rest, cur =>
      if sep ≠ [] ∧ sep.isPrefixOf (c :: rest) then
        cur.reverse :: pySplitAux sep fuel ((c :: rest).drop sep.length) []
      else
        pySplitAux sep fuel rest (c :: cur)

/-- Separator-based splitting of a character list. -/
def splitSeq (sep s : List Char) : List (List Char) :=
  pySplitAux sep s.length s []

/-- Python `str.split(sep)` for a non-empty separator. -/
def pySplit (hay sep : String) : List String :=
  (splitSeq sep.data hay.data).map String.mk

/-- Python substring containment, the `needle in hay` operator, for a
non-empty needle: `hay.split(needle)` has at least two parts exactly when
the needle occurs in the haystack. -/
def pyContains (hay needle : String) : Bool :=
  (pySplit hay needle).length != 1

/-- Python `str.startswith`. -/
def pyStartsWith (s pre : String) : Bool :=
  pre.data.isPrefixOf s.data

/-- Modelled from Python `str.lower`, exact on ASCII (`Char.toLower`);
the only strings it is applied to are compared against the ASCII literal
`image/`. -/
def pyLower (s : String) : String :=
  String.mk (s.data.map Char.toLower)

/-- The single-quote character, written by code point to keep it out of
string literals. -/
def singleQuote : Char := Char.ofNat 39

/-- Python `str.strip(chars)`: remove leading and trailing characters
belonging to the given set. -/
def pyStrip (cs : List Char) (s : String) : String :=
  String.mk (((s.data.dropWhile (fun c => c ∈ cs)).reverse.dropWhile
    (fun c => c ∈ cs)).reverse)

/-- Modelled from CPython `str.isalnum` (true on Unicode categories L*,
Nd, Nl, No), written out exactly for code points up to U+00FF — the range
every character evaluated by the theorems below lies in. Code points above
U+00FF (many of which are alphanumeric for CPython as well) are not
modelled and map to `false`. -/
def pyIsAlnum (c : Char) : Bool :=
  let n := c.toNat
  (48 ≤ n && n ≤ 57) || (65 ≤ n && n ≤ 90) || (97 ≤ n && n ≤ 122) ||
  n == 0xAA || n == 0xB2 || n == 0xB3 || n == 0xB5 || n == 0xB9 ||
  n == 0xBA || (0xBC ≤ n && n ≤ 0xBE) || (0xC0 ≤ n && n ≤ 0xD6) ||
  (0xD8 ≤ n && n ≤ 0xF6) || (0xF8 ≤ n && n ≤ 0xFF)

/-- Digits of a literal to its numeric value. -/
def digitsToNat (ds : List Char) : Nat :=
  ds.foldl (fun n c => 10 * n + (c.toNat - 48)) 0

/-- The message `int(...)` puts in the `ValueError` it raises on a
malformed literal. -/
def pyIntErrMsg (s : String) : String :=
  "invalid literal for int() with base 10: " ++ String.mk [singleQuote]
    ++ s ++ String.mk [singleQuote]

/-- Modelled from CPython `int(str)`: optional surrounding whitespace, an
optional sign, then at least one decimal digit; anything else raises
`ValueError` (digit-group underscores are not modelled). -/
def pyInt (s : String) : Except String Int :=
  let ws : List Char := [' ', '\t', '\n', '\r']
  let t := ((s.data.dropWhile (fun c => c ∈ ws)).reverse.dropWhile
    (fun c => c ∈ ws)).reverse
  let signDigits : Int × List Char :=
    match t with
    | '+' :: rest => (1, rest)
    | '-' :: rest => (-1, rest)
    | _ => (1, t)
  if signDigits.2 ≠ [] ∧ signDigits.2.all Char.isDigit then
    .ok (signDigits.1 * (digitsToNat signDigits.2 : Int))
  else
    .error (pyIntErrMsg s)

/-- A character of a URL scheme: `urllib` accepts letters, digits and
`+`, `-`, `.` after the initial letter. -/
def schemeChar (c : Char) : Bool :=
  c.isAlphanum || c == '+' || c == '-' || c == '.'

/-- Modelled from `urllib.parse.urlparse(url).path`: the fragment is cut
at the first `#`, the query at the first `?`, a well-formed `scheme:` is
removed, and for a `//netloc` form the path starts at the first `/` after
the authority. The params split on `;` that `urlparse` additionally
performs is not modelled (no input considered below carries params). -/
def pyUrlparsePath (url : String) : String :=
  let noFrag := (splitSeq ['#'] url.data).headD []
  let noQuery := (splitSeq ['?'] noFrag).headD []
  let afterScheme :=
    match splitSeq [':'] noQuery with
    | [] => noQuery
    | [s] => s
    | s :: rest =>
        if s ≠ [] ∧ (s.headD ' ').isAlpha ∧ s.all schemeChar then
          List.intercalate [':'] rest
        else noQuery
  if ['/', '/'].isPrefixOf afterScheme then
    String.mk ((afterScheme.drop 2).dropWhile (fun c => c ≠ '/'))
  else String.mk afterScheme

/-- Hexadecimal digit value, if any. -/
def hexVal (c : Char) : Option Nat :=
  if '0' ≤ c ∧ c ≤ '9' then some (c.toNat - 48)
  else if 'a' ≤ c ∧ c ≤ 'f' then some (c.toNat - 87)
  else if 'A' ≤ c ∧ c ≤ 'F' then some (c.toNat - 55)
  else none

/-- Decoder behind `pyUnquote`, on character lists. -/
def unquoteAux : List Char → List Char
  | [] => []
  | '%' :: a :: b :: rest =>
      match hexVal a, hexVal b with
      | some hi, some lo =>
          if 16 * hi + lo < 128 then
            Char.ofNat (16 * hi + lo) :: unquoteAux rest
          else '%' :: unquoteAux (a :: b :: rest)
      | _, _ => '%' :: unquoteAux (a :: b :: rest)
  | c :: rest => c :: unquoteAux rest

/-- Modelled from `urllib.parse.unquote`: `%XX` escapes with an ASCII
value are decoded; escapes above `0x7F` (which CPython feeds to a UTF-8
decoder) are left in place, a simplification no theorem below exercises. -/
def pyUnquote (s : String) : String :=
  String.mk (unquoteAux s.data)

/-- Modelled from `os.path.basename` on POSIX: everything after the
last `/`. -/
def pyBasename (p : String) : String :=
  String.mk ((splitSeq ['/'] p.data).getLastD [])

/-- Modelled from `str(Path(directory) / filename)`: `pathlib` ignores
an empty component and restarts at an absolute one. -/
def pyPathJoin (directory filename : String) : String :=
  if filename = "" then directory
  else if pyStartsWith filename "/" then filename
  else directory ++ "/" ++ filename

/-- Modelled from the standard library `mimetypes.guess_extension`,
restricted to the image types exercised by the theorems below; every
other argument maps to `none` (a miss). -/
def pyGuessExtension (ct : String) : Option String :=
  if ct = "image/jpeg" then some ".jpg"
  else if ct = "image/png" then some ".png"
  else if ct = "image/gif" then some ".gif"
  else if ct = "image/bmp" then some ".bmp"
  else none

/-- One HTTP response as the program reads it: the status code, the three
headers it consults (`content-length` kept as the raw header string,
since the program parses it with `int(...)`), and the body as the chunk
sequence `iter_content(chunk_size=8192)` yields. -/
structure Response where
  status : Nat
  contentType : Option String
  contentDisposition : Option String
  contentLength : Option String
  chunks : List (List Nat)
deriving DecidableEq

/-- The whole body, `response.content`: the chunks joined. -/
def Response.content (r : Response) : List Nat :=
  r.chunks.flatten

/-- What `requests.get(url, ...)` did: raised one of the exceptions the
program catches, or produced a response. -/
inductive RequestOutcome where
  | timeout
  | connectionError
  | otherError (msg : String)
  | response (r : Response)
deriving DecidableEq

/-- The outside world as observed by one fetch attempt: whether
`Path(directory).mkdir` raises `PermissionError`, the outcome of
`requests.get`, whether opening the output file for writing raises
`PermissionError`, and `int(time.time())` at the moment
`generate_filename` runs. -/
structure Env where
  mkdirPermissionError : Bool
  request : RequestOutcome
  openPermissionError : Bool
  now : Nat
deriving DecidableEq

/-- The Python exceptions that can escape `fetch_image` uncaught. -/
inductive PyError where
  | permissionError
deriving DecidableEq

/-- How one call of `fetch_image` ended: with the returned
`(success, message)` pair, or with an exception propagating out of the
function. -/
inductive FetchResult where
  | uncaught (e : PyError)
  | returned (ok : Bool) (msg : String)
deriving DecidableEq

/-- Everything one attempt did: how the call ended, the file write it
performed (path and bytes), if any, and the final value of the
`total_size` counter (0 when the write loop was never reached). -/
structure FetchOutcome where
  result : FetchResult
  written : Option (String × List Nat)
  totalSize : Nat
deriving DecidableEq

/-- An outcome that returned a pair without writing any file. -/
def noWrite (ok : Bool) (msg : String) : FetchOutcome :=
  { result := .returned ok msg, written := none, totalSize := 0 }

/-- Lines 33–39, `get_content_type_extension`: an extension from the
`content-type` header via `mimetypes`, defaulting to `.jpg`. The source
tests substring containment of `image/`, not a prefix. -/
def get_content_type_extension (r : Response) : String :=
  let content_type := r.contentType.getD ""
  if pyContains content_type "image/" then
    match pyGuessExtension content_type with
    | some extension => extension
    | none => ".jpg"
  else ".jpg"

/-- Line 45: the candidate filename taken from the URL,
`os.path.basename(unquote(urlparse(url).path))`. -/
def filename_from_url (url : String) : String :=
  pyBasename (pyUnquote (pyUrlparsePath url))

/-- Line 59: the sanitization step — keep a character exactly when
`c.isalnum()` holds or the character is one of `.`, `-`, `_`; every other
character is dropped. -/
def sanitize_chars (s : String) : String :=
  String.mk (s.data.filter
    (fun c => pyIsAlnum c || c == '.' || c == '-' || c == '_'))

/-- Lines 41–60, `generate_filename`: basename of the decoded URL path if
it is non-empty and contains a dot; else the `filename=` parameter of
`content-disposition`, stripped of surrounding quotes, when that header
carries one; else `ubuntu_image_<timestamp><extension>`; the chosen
string is then sanitised. `now` is the `int(time.time())` of the call. -/
def generate_filename (now : Nat) (url : String) (r : Response) : String :=
  let filename := filename_from_url url
  let filename :=
    if filename = "" ∨ ¬ pyContains filename "." then
      let content_disposition := r.contentDisposition.getD ""
      if pyContains content_disposition "filename=" then
        pyStrip ['"', singleQuote]
          ((pySplit content_disposition "filename=").getD 1 "")
      else
        "ubuntu_image_" ++ toString now ++ get_content_type_extension r
    else filename
  sanitize_chars filename

/-- Lines 70–76: the five magic-byte signatures — JPEG, PNG, GIF87a,
GIF89a, BMP. -/
def image_signatures : List (List Nat) :=
  [[0xff, 0xd8, 0xff],
   [0x89, 0x50, 0x4e, 0x47, 0x0d, 0x0a, 0x1a, 0x0a],
   [0x47, 0x49, 0x46, 0x38, 0x37, 0x61],
   [0x47, 0x49, 0x46, 0x38, 0x39, 0x61],
   [0x42, 0x4d]]

/-- Lines 62–81, `validate_image_response`: accept when the lowercased
`content-type` starts with `image/`; otherwise when one of the signatures
is a prefix of the first 10 body bytes; otherwise raise
`ValueError("URL does not point to a valid image file")`. -/
def validate_image_response (r : Response) : Except String Bool :=
  let content_type := pyLower (r.contentType.getD "")
  if ¬ pyStartsWith content_type "image/" then
    let content_start := r.content.take 10
    if ¬ image_signatures.any (fun sig => sig.isPrefixOf content_start) then
      .error "URL does not point to a valid image file"
    else .ok true
  else .ok true

/-- Lines 118–120: `if content_length and int(content_length) > 50*1024*1024`.
The header value is a string, so it is truthy exactly when non-empty, and
`int` raises `ValueError` on a malformed literal; when the parse succeeds
the branch only prints an advisory, so a successful check carries no
information. -/
def content_length_check (cl : Option String) : Except String Unit :=
  match cl with
  | none => .ok ()
  | some s =>
      if s = "" then .ok ()
      else
        match pyInt s with
        | .error m => .error m
        | .ok _ => .ok ()

/-- Lines 125–130: the write loop
`for chunk in iter_content: if chunk: f.write(chunk); total_size += len(chunk)`.
Returns the bytes written and the final `total_size`. -/
def streamChunks (chunks : List (List Nat)) : List Nat × Nat :=
  chunks.foldl
    (fun acc chunk =>
      if chunk = [] then acc else (acc.1 ++ chunk, acc.2 + chunk.length))
    ([], 0)

/-- Lines 107–139: what the `try` block does once `requests.get` has
produced a response. `raise_for_status` (line 108) raises
`requests.exceptions.HTTPError` exactly for status codes 400–599, and
the handler of lines 151–155 formats the returned message from the
status code the exception carries; the remaining handlers convert the
`ValueError` of validation or of `int(content_length)` and the
`PermissionError` of opening the output file into `(False, message)`
pairs. -/
def fetch_response (now : Nat) (openPermissionError : Bool)
    (url directory : String) (r : Response) : FetchOutcome :=
  if 400 ≤ r.status ∧ r.status < 600 then
    noWrite false ("HTTP " ++ toString r.status ++ " error")
  else
    match validate_image_response r with
    | .error m => noWrite false m
    | .ok _ =>
        let filename := generate_filename now url r
        let filepath := pyPathJoin directory filename
        match content_length_check r.contentLength with
        | .error m => noWrite false m
        | .ok _ =>
            if openPermissionError then
              noWrite false "Permission denied"
            else
              let st := streamChunks r.chunks
              { result := .returned true filepath,
                written := some (filepath, st.1),
                totalSize := st.2 }

/-- Lines 83–170, `fetch_image`: one download attempt. The `mkdir` on
line 95 precedes the `try` block of line 98, so a `PermissionError`
raised there escapes the function; every exception raised inside the
`try` block is converted by the handlers of lines 141–170 into a
`(False, message)` pair. -/
def fetch_image (env : Env) (url : String) (directory : String) :
    FetchOutcome :=
  if env.mkdirPermissionError then
    { result := .uncaught .permissionError, written := none, totalSize := 0 }
  else
    match env.request with
    | .timeout => noWrite false "Timeout error"
    | .connectionError => noWrite false "Connection error"
    | .otherError msg => noWrite false msg
    | .response r =>
        fetch_response env.now env.openPermissionError url directory r

/-- A flat-file filesystem: contents by path. -/
def FS : Type := String → Option (List Nat)

/-- The filesystem effect of one attempt. A performed write models
opening the file in truncating write-binary mode followed by the chunk
writes: the file is created or truncated — whatever was at the path before is replaced, with
no existence check. -/
def applyOutcome (o : FetchOutcome) (fs : FS) : FS :=
  match o.written with
  | none => fs
  | some pb => fun q => if q = pb.1 then some pb.2 else fs q

/-- The acceptance condition of §4.2 of the specification, as the spec
words it: the `content-type` header starts with `image/` compared
case-insensitively, or one of the five signatures is a prefix of the
first 10 bytes of the body. -/
def spec_accepts (r : Response) : Bool :=
  pyStartsWith (pyLower (r.contentType.getD "")) "image/"
    || image_signatures.any (fun sig => sig.isPrefixOf (r.content.take 10))

/-- The character class `[A-Za-z0-9.\-_]` that §4.1 of the specification
allows in a sanitised filename. -/
def specSafeChar (c : Char) : Bool :=
  ('A' ≤ c && c ≤ 'Z') || ('a' ≤ c && c ≤ 'z') || ('0' ≤ c && c ≤ '9')
    || c == '.' || c == '-' || c == '_'

/-- The characters a sanitised filename is made of, as the data of a
filtered list. -/
theorem sanitize_chars_data (s : String) :
    (sanitize_chars s).data
      = s.data.filter
          (fun c => pyIsAlnum c || c == '.' || c == '-' || c == '_') := rfl

/-- When the directory exists and the request produced a response, the
attempt is the `try`-block computation on that response. -/
theorem fetch_image_response_eq (env : Env) (url directory : String)
    (r : Response)
    (hmk : env.mkdirPermissionError = false)
    (hreq : env.request = .response r) :
    fetch_image env url directory
      = fetch_response env.now env.openPermissionError url directory r := by
  unfold fetch_image
  rw [hmk, hreq]
  rfl

/-- Validation reads only the `content-type` header and the body, so the
`content-length` header does not influence it. -/
theorem validate_image_response_cl_irrel (st : Nat) (ct cd cl cl' : Option String)
    (ch : List (List Nat)) :
    validate_image_response ⟨st, ct, cd, cl, ch⟩
      = validate_image_response ⟨st, ct, cd, cl', ch⟩ := rfl

/-- Filename generation reads only the URL, the `content-disposition`
header and the `content-type` header, so the `content-length` header
does not influence it. -/
theorem generate_filename_cl_irrel (now : Nat) (url : String) (st : Nat)
    (ct cd cl cl' : Option String) (ch : List (List Nat)) :
    generate_filename now url ⟨st, ct, cd, cl, ch⟩
      = generate_filename now url ⟨st, ct, cd, cl', ch⟩ := rfl

/-- The write loop on any accumulator: it appends the non-empty chunks
and adds up their lengths. -/
theorem streamChunks_foldl (chunks : List (List Nat)) (acc : List Nat × Nat) :
    chunks.foldl
        (fun acc chunk =>
          if chunk = [] then acc else (acc.1 ++ chunk, acc.2 + chunk.length))
        acc
      = (acc.1 ++ (chunks.filter (fun c => !c.isEmpty)).flatten,
         acc.2 + ((chunks.filter (fun c => !c.isEmpty)).map List.length).sum) := by
  induction chunks generalizing acc with
  | nil => simp
  | cons c cs ih =>
      cases c with
      | nil => simpa using ih acc
      | cons a as =>
          simp only [List.foldl_cons, if_neg (List.cons_ne_nil a as), ih,
            List.filter_cons, List.isEmpty_cons, Bool.not_false, if_true,
            List.flatten_cons, List.map_cons, List.sum_cons, Prod.mk.injEq]
          exact ⟨by simp [List.append_assoc], by omega⟩

/-- The write loop writes exactly the non-empty chunks, in order, and
`total_size` ends as the sum of their lengths. -/
theorem streamChunks_eq (chunks : List (List Nat)) :
    streamChunks chunks
      = ((chunks.filter (fun c => !c.isEmpty)).flatten,
         ((chunks.filter (fun c => !c.isEmpty)).map List.length).sum) := by
  unfold streamChunks
  simpa using streamChunks_foldl chunks ([], 0)

/-- C1: the specification requires a permission failure during directory
creation to come back as a structured Failure result, with no error
propagating past the fetch attempt. In the source,
`Path(directory).mkdir(exist_ok=True)` on line 95 runs before the `try`
block that starts on line 98, so the `PermissionError` it raises escapes
`fetch_image` uncaught instead of producing the
`(False, "Permission denied")` return of the handler on lines 162–165. -/
theorem c1_mkdir_permission_error_escapes :
    (fetch_image
        ⟨true, .response ⟨200, some "image/png", none, none, [[1]]⟩, false, 0⟩
        "https://example.com/a.png" "Fetched_Images").result
      = .uncaught .permissionError := rfl

/-- C2, counterexample: a response with the non-2xx status 300 does not
make the attempt fail — `raise_for_status` raises only for 400–599 — so
with an image content type the attempt succeeds and writes the file,
contradicting the claim that every non-2xx status yields
`Failure{HTTPStatusError}` with no file written. -/
theorem c2_counterexample :
    ¬ (200 ≤ 300 ∧ 300 ≤ 299)
    ∧ (fetch_image
          ⟨false, .response ⟨300, some "image/png", none, none, [[137]]⟩,
            false, 0⟩
          "https://x/a.png" "Fetched_Images").result
        = .returned true "Fetched_Images/a.png"
    ∧ (fetch_image
          ⟨false, .response ⟨300, some "image/png", none, none, [[137]]⟩,
            false, 0⟩
          "https://x/a.png" "Fetched_Images").written
        = some ("Fetched_Images/a.png", [137]) := by
  exact ⟨by omega, by decide, by decide⟩

/-- C2, amended: for every response whose status code lies in 400–599 —
the statuses `raise_for_status` turns into `HTTPError` — the attempt
returns the failure pair carrying that status code and writes no file;
a 1xx or 3xx status, although not 2xx, is not treated as an error. -/
theorem c2_amended (env : Env) (url directory : String) (r : Response)
    (hmk : env.mkdirPermissionError = false)
    (hreq : env.request = .response r)
    (hlo : 400 ≤ r.status) (hhi : r.status < 600) :
    fetch_image env url directory
      = noWrite false ("HTTP " ++ toString r.status ++ " error") := by
  rw [fetch_image_response_eq env url directory r hmk hreq]
  unfold fetch_response
  rw [if_pos ⟨hlo, hhi⟩]

/-- Witness for the amended C2 at a concrete 404 response. -/
theorem c2_amended_witness :
    fetch_image
        ⟨false, .response ⟨404, some "text/plain", none, none, [[104]]⟩,
          false, 0⟩
        "https://x/a.png" "Fetched_Images"
      = noWrite false ("HTTP " ++ toString 404 ++ " error") :=
  c2_amended
    ⟨false, .response ⟨404, some "text/plain", none, none, [[104]]⟩, false, 0⟩
    "https://x/a.png" "Fetched_Images"
    ⟨404, some "text/plain", none, none, [[104]]⟩
    rfl rfl (by decide) (by decide)

/-- C3: the claim requires the filename resolver never to return an empty
string, falling back to the timestamp name when sanitization empties the
chosen candidate. In the source the fallback test (line 48) looks only at
the basename taken from the URL, before sanitization: with a URL whose
path has no dotted basename and a `content-disposition` of `filename=///`
the resolver picks `///` from the header, sanitization drops every
character, and the empty string is returned — no fallback runs. -/
theorem c3_empty_filename_no_fallback :
    generate_filename 0 "https://x/img"
        ⟨200, some "image/png", some "filename=///", none, [[1]]⟩ = "" := rfl

/-- C4, counterexample: the sanitization step keeps every character that
`str.isalnum` accepts, and Python's `isalnum` is Unicode-wide, not
restricted to `[A-Za-z0-9]`: the letter `é` (U+00E9) survives, so the
output is not confined to the claimed ASCII class (the space and the
path separator of the same input are dropped, as claimed). -/
theorem c4_counterexample :
    sanitize_chars "a/é b.png" = "aéb.png"
    ∧ ("aéb.png".data.all specSafeChar) = false := by
  exact ⟨rfl, rfl⟩

/-- C4, amended: sanitization only drops characters — the output is a
subsequence of the input — and every surviving character is alphanumeric
in Python's Unicode sense or one of `.`, `-`, `_`; in particular the path
separators `/` and `\` and the space never survive, but non-ASCII
alphanumeric characters may. -/
theorem c4_amended (s : String) :
    (sanitize_chars s).data.Sublist s.data
    ∧ ((sanitize_chars s).data.all
        (fun c => pyIsAlnum c || c == '.' || c == '-' || c == '_')) = true
    ∧ '/' ∉ (sanitize_chars s).data
    ∧ '\\' ∉ (sanitize_chars s).data
    ∧ ' ' ∉ (sanitize_chars s).data := by
  rw [sanitize_chars_data]
  refine ⟨List.filter_sublist s.data, ?_, ?_, ?_, ?_⟩
  · exact List.all_eq_true.mpr (fun c hc => (List.mem_filter.mp hc).2)
  · intro h
    exact absurd (List.mem_filter.mp h).2 (by decide)
  · intro h
    exact absurd (List.mem_filter.mp h).2 (by decide)
  · intro h
    exact absurd (List.mem_filter.mp h).2 (by decide)

/-- The `try`-block computation on a response that passes the status gate,
passes validation, has a well-formed `content-length`, and meets no
permission error at the output file: it returns the filepath with success
and writes the streamed bytes. -/
theorem fetch_response_success (now : Nat) (url directory : String)
    (r : Response) (b : Bool)
    (hst : ¬ (400 ≤ r.status ∧ r.status < 600))
    (hval : validate_image_response r = .ok b)
    (hcl : content_length_check r.contentLength = .ok ()) :
    fetch_response now false url directory r
      = { result := .returned true
            (pyPathJoin directory (generate_filename now url r)),
          written := some (pyPathJoin directory (generate_filename now url r),
            (streamChunks r.chunks).1),
          totalSize := (streamChunks r.chunks).2 } := by
  unfold fetch_response
  rw [if_neg hst, hval, hcl]
  rfl

/-- C5: a response that reaches validation (the directory was created and
the status passed `raise_for_status`) whose lowercased content type does
not start with `image/` and whose leading bytes match none of the five
signatures makes the attempt return the content-validation failure, and
no file is written — the save step never runs after a rejection. -/
theorem c5_validation_rejects_no_write (env : Env) (url directory : String)
    (r : Response)
    (hmk : env.mkdirPermissionError = false)
    (hreq : env.request = .response r)
    (hst : ¬ (400 ≤ r.status ∧ r.status < 600))
    (hct : pyStartsWith (pyLower (r.contentType.getD "")) "image/" = false)
    (hsig : image_signatures.any
        (fun sig => sig.isPrefixOf (r.content.take 10)) = false) :
    fetch_image env url directory
      = noWrite false "URL does not point to a valid image file" := by
  have hval : validate_image_response r
      = .error "URL does not point to a valid image file" := by
    unfold validate_image_response
    simp [hct, hsig]
  rw [fetch_image_response_eq env url directory r hmk hreq]
  unfold fetch_response
  rw [if_neg hst, hval]

/-- Witness for C5 at a concrete text response. -/
theorem c5_validation_rejects_no_write_witness :
    fetch_image
        ⟨false,
          .response ⟨200, some "text/plain", none, none, [[104, 101, 108]]⟩,
          false, 0⟩
        "https://x/file.txt" "Fetched_Images"
      = noWrite false "URL does not point to a valid image file" :=
  c5_validation_rejects_no_write
    ⟨false, .response ⟨200, some "text/plain", none, none, [[104, 101, 108]]⟩,
      false, 0⟩
    "https://x/file.txt" "Fetched_Images"
    ⟨200, some "text/plain", none, none, [[104, 101, 108]]⟩
    rfl rfl (by decide) rfl rfl

/-- C6: the validator accepts exactly the responses whose lowercased
content type starts with `image/` or whose first 10 body bytes extend one
of the five signatures; every other response is rejected with exactly the
message of line 79. -/
theorem c6_validator_characterization (r : Response) :
    validate_image_response r
      = (if spec_accepts r then Except.ok true
         else Except.error "URL does not point to a valid image file") := by
  unfold validate_image_response spec_accepts
  by_cases hct :
      pyStartsWith (pyLower (r.contentType.getD "")) "image/" = true
  · simp [hct]
  · simp only [Bool.not_eq_true] at hct
    by_cases hsig : image_signatures.any
        (fun sig => sig.isPrefixOf (r.content.take 10)) = true
    · simp [hct, hsig]
    · simp only [Bool.not_eq_true] at hsig
      simp [hct, hsig]

/-- C7: on a successful attempt, the written bytes are exactly the
non-empty chunks joined in order — empty chunks are skipped without
error — and the reported `total_size` is the sum of the lengths of the
written chunks, which equals the number of bytes written. -/
theorem c7_size_is_sum_of_chunks (env : Env) (url directory : String)
    (r : Response) (b : Bool)
    (hmk : env.mkdirPermissionError = false)
    (hreq : env.request = .response r)
    (hst : ¬ (400 ≤ r.status ∧ r.status < 600))
    (hval : validate_image_response r = .ok b)
    (hcl : content_length_check r.contentLength = .ok ())
    (hop : env.openPermissionError = false) :
    (fetch_image env url directory).written
        = some (pyPathJoin directory (generate_filename env.now url r),
            (r.chunks.filter (fun c => !c.isEmpty)).flatten)
    ∧ (fetch_image env url directory).totalSize
        = ((r.chunks.filter (fun c => !c.isEmpty)).map List.length).sum
    ∧ (fetch_image env url directory).totalSize
        = ((r.chunks.filter (fun c => !c.isEmpty)).flatten).length := by
  rw [fetch_image_response_eq env url directory r hmk hreq, hop,
    fetch_response_success env.now url directory r b hst hval hcl,
    streamChunks_eq]
  exact ⟨rfl, rfl, by rw [List.length_flatten]⟩

/-- Witness for C7 at a concrete response with an empty chunk in the
stream. -/
theorem c7_size_is_sum_of_chunks_witness :
    ((fetch_image
        ⟨false, .response ⟨200, some "image/png", none, none, [[1, 2], [], [3]]⟩,
          false, 7⟩
        "https://x/a.png" "d").written
      = some (pyPathJoin "d"
          (generate_filename 7 "https://x/a.png"
            ⟨200, some "image/png", none, none, [[1, 2], [], [3]]⟩),
          ([[1, 2], [], [3]].filter (fun c => !c.isEmpty)).flatten))
    ∧ ((fetch_image
        ⟨false, .response ⟨200, some "image/png", none, none, [[1, 2], [], [3]]⟩,
          false, 7⟩
        "https://x/a.png" "d").totalSize
      = (([[1, 2], [], [3]].filter (fun c => !c.isEmpty)).map List.length).sum)
    ∧ ((fetch_image
        ⟨false, .response ⟨200, some "image/png", none, none, [[1, 2], [], [3]]⟩,
          false, 7⟩
        "https://x/a.png" "d").totalSize
      = (([[1, 2], [], [3]].filter (fun c => !c.isEmpty)).flatten).length) :=
  c7_size_is_sum_of_chunks
    ⟨false, .response ⟨200, some "image/png", none, none, [[1, 2], [], [3]]⟩,
      false, 7⟩
    "https://x/a.png" "d"
    ⟨200, some "image/png", none, none, [[1, 2], [], [3]]⟩ true
    rfl rfl (by decide) rfl rfl rfl

/-- C8, counterexample: with a URL whose path has no dotted basename and
no `content-disposition` header, the resolver synthesises the timestamp
name, so two invocations at different clock values return different
filenames — resolution is not a function of URL and headers alone. -/
theorem c8_counterexample :
    generate_filename 0 "https://x/img"
        ⟨200, some "image/jpeg", none, none, [[255, 216, 255]]⟩
      ≠ generate_filename 1 "https://x/img"
        ⟨200, some "image/jpeg", none, none, [[255, 216, 255]]⟩ := by decide

/-- C8, amended: filename resolution is deterministic for a fixed URL and
fixed headers whenever the name is taken from the URL basename or from the
`content-disposition` header; only the synthetic fallback embeds the
current timestamp and varies between invocations. -/
theorem c8_amended (t₁ t₂ : Nat) (url : String) (r : Response)
    (h : (filename_from_url url ≠ ""
            ∧ pyContains (filename_from_url url) "." = true)
         ∨ pyContains (r.contentDisposition.getD "") "filename=" = true) :
    generate_filename t₁ url r = generate_filename t₂ url r := by
  unfold generate_filename
  dsimp only
  rcases h with ⟨h1, h2⟩ | h3
  · have hno : ¬ (filename_from_url url = ""
        ∨ ¬ pyContains (filename_from_url url) "." = true) :=
      fun hc => hc.elim h1 (fun hb => hb h2)
    rw [if_neg hno, if_neg hno]
  · by_cases hu : filename_from_url url = ""
        ∨ ¬ pyContains (filename_from_url url) "." = true
    · rw [if_pos hu, if_pos hu, if_pos h3, if_pos h3]
    · rw [if_neg hu, if_neg hu]

/-- Witness for the amended C8: a dotted URL basename gives the same name
at two different clock values. -/
theorem c8_amended_witness :
    generate_filename 0 "https://x/a.png"
        ⟨200, some "image/png", none, none, [[1]]⟩
      = generate_filename 5 "https://x/a.png"
        ⟨200, some "image/png", none, none, [[1]]⟩ :=
  c8_amended 0 5 "https://x/a.png" ⟨200, some "image/png", none, none, [[1]]⟩
    (Or.inl ⟨by decide, by decide⟩)

/-- C9, counterexample: two attempts identical except that the second
carries the non-numeric `content-length` header `abc` end differently —
the second one fails, because `int(content_length)` raises `ValueError`
before the write — so the content-length inspection is not purely
informational. -/
theorem c9_counterexample :
    ((fetch_image
        ⟨false, .response ⟨200, some "image/png", none, none, [[1]]⟩,
          false, 0⟩
        "https://x/a.png" "d").result
      = .returned true "d/a.png")
    ∧ ((fetch_image
        ⟨false, .response ⟨200, some "image/png", none, some "abc", [[1]]⟩,
          false, 0⟩
        "https://x/a.png" "d").result
      = .returned false (pyIntErrMsg "abc")) := by
  exact ⟨by decide, by decide⟩

/-- C9, amended: for two attempts that differ only in the presence or
value of the `content-length` header, the outcomes are identical whenever
both header values are absent, empty, or parse as integers; the 50 MiB
comparison itself only prints an advisory and never changes the result. -/
theorem c9_amended (mk op : Bool) (now st : Nat) (ct cd : Option String)
    (cl₁ cl₂ : Option String) (ch : List (List Nat)) (url directory : String)
    (h₁ : content_length_check cl₁ = .ok ())
    (h₂ : content_length_check cl₂ = .ok ()) :
    fetch_image ⟨mk, .response ⟨st, ct, cd, cl₁, ch⟩, op, now⟩ url directory
      = fetch_image ⟨mk, .response ⟨st, ct, cd, cl₂, ch⟩, op, now⟩
          url directory := by
  cases mk with
  | true => rfl
  | false =>
      rw [fetch_image_response_eq _ url directory _ rfl rfl,
        fetch_image_response_eq _ url directory _ rfl rfl]
      unfold fetch_response
      dsimp only
      by_cases hst : 400 ≤ st ∧ st < 600
      · rw [if_pos hst, if_pos hst]
      · rw [if_neg hst, if_neg hst,
          validate_image_response_cl_irrel st ct cd cl₂ cl₁ ch]
        cases hv : validate_image_response ⟨st, ct, cd, cl₁, ch⟩ with
        | error m => rfl
        | ok b =>
            dsimp only
            rw [generate_filename_cl_irrel now url st ct cd cl₂ cl₁ ch,
              h₁, h₂]

/-- Witness for the amended C9: absent header versus a numeric header. -/
theorem c9_amended_witness :
    fetch_image
        ⟨false, .response ⟨200, some "image/png", none, none, [[1]]⟩,
          false, 0⟩
        "https://x/a.png" "d"
      = fetch_image
        ⟨false, .response ⟨200, some "image/png", none, some "123", [[1]]⟩,
          false, 0⟩
        "https://x/a.png" "d" :=
  c9_amended false false 0 200 (some "image/png") none none (some "123")
    [[1]] "https://x/a.png" "d" rfl rfl

/-- C10: the output file is opened in truncating write mode with no
existence check, so when a file already exists at the resolved path a
successful attempt replaces its contents with the streamed bytes — two
attempts resolving to the same filename silently overwrite. -/
theorem c10_existing_file_overwritten (env : Env) (url directory : String)
    (fs : FS) (p : String) (bytes old : List Nat)
    (hw : (fetch_image env url directory).written = some (p, bytes))
    (hold : fs p = some old) :
    applyOutcome (fetch_image env url directory) fs p = some bytes
    ∧ (bytes ≠ old →
        applyOutcome (fetch_image env url directory) fs p ≠ fs p) := by
  have hres : applyOutcome (fetch_image env url directory) fs p
      = some bytes := by
    unfold applyOutcome
    rw [hw]
    simp
  refine ⟨hres, fun hne hcontra => ?_⟩
  rw [hres, hold] at hcontra
  exact hne (Option.some.injEq bytes old ▸ hcontra)

/-- Witness for C10: a filesystem already holding different bytes at the
resolved path ends up with the streamed bytes there. -/
theorem c10_existing_file_overwritten_witness :
    (applyOutcome
        (fetch_image
          ⟨false, .response ⟨200, some "image/png", none, none, [[7, 8]]⟩,
            false, 0⟩
          "https://x/a.png" "Fetched_Images")
        (fun q => if q = "Fetched_Images/a.png" then some [9] else none)
        "Fetched_Images/a.png"
      = some [7, 8])
    ∧ ([7, 8] ≠ [9] →
        applyOutcome
            (fetch_image
              ⟨false, .response ⟨200, some "image/png", none, none, [[7, 8]]⟩,
                false, 0⟩
              "https://x/a.png" "Fetched_Images")
            (fun q => if q = "Fetched_Images/a.png" then some [9] else none)
            "Fetched_Images/a.png"
          ≠ (fun q => if q = "Fetched_Images/a.png" then some [9] else none)
              "Fetched_Images/a.png") :=
  c10_existing_file_overwritten
    ⟨false, .response ⟨200, some "image/png", none, none, [[7, 8]]⟩,
      false, 0⟩
    "https://x/a.png" "Fetched_Images"
    (fun q => if q = "Fetched_Images/a.png" then some [9] else none)
    "Fetched_Images/a.png" [7, 8] [9]
    (by decide) (by decide)

end UbuntuFetcher
